import Mathlib

/-!
# Verification of the Calamares netinstall `Config` loader

Shallow embedding of `src/modules/netinstall/Config.cpp` (the netinstall
group-list loader of Calamares): the status state machine, the two
`loadGroupList` overloads, the completion handler `receivedGroupData`,
`SourceItem::makeSourceItem` and `setConfigurationMap`.

Qt and libcalamares collaborators (the network manager, the YAML layer,
`getString`/`getBool`, the package model, global storage) are not part of the
analysed source file; they are modelled explicitly, each with a doc comment
saying what it stands for.  Side effects (signals, log lines, global-storage
writes, reply release) are reified as an ordered list of `Event`s returned by
each operation together with the successor state.
-/

namespace Netinstall

/-- The `Config::Status` enumeration from `Config.h` (used throughout
`Config.cpp`): `Ok` plus the four terminal failure states. -/
inductive Status where
  | Ok
  | FailedBadConfiguration
  | FailedBadData
  | FailedInternalError
  | FailedNetworkError
deriving DecidableEq, Repr

/-- Modelled from the spec: a Qt `QUrl` is an externally parsed URL; the core
only looks at its text and at `isValid()`, so we carry exactly those two.
`QUrl()` (the default-constructed empty URL) is invalid. -/
structure QUrl where
  text : String
  valid : Bool
deriving DecidableEq, Repr

/-- The default-constructed `QUrl()`: empty text, not valid. -/
def QUrl.empty : QUrl := ⟨"", false⟩

/-- The top-level shape of a parsed YAML document, as `Config.cpp` inspects
it: `IsSequence()`, `IsMap()`, or anything else (a scalar/null). -/
inductive YamlNode where
  | scalar (s : String)
  | sequence (xs : List YamlNode)
  | mapping (kvs : List (String × YamlNode))

/-- Modelled from the spec: a `QVariant` value as used by this code —
strings, string lists, booleans, lists, maps, or an invalid/null variant
(what `QVariantMap::value` returns for a missing key). Group records are
opaque `Variant`s. -/
inductive Variant where
  | null
  | str (s : String)
  | strList (ss : List String)
  | boolean (b : Bool)
  | list (xs : List Variant)
  | vmap (kvs : List (String × Variant))

/-- Modelled from the spec: `QVariant::toList()` — a list variant yields its
elements, a string-list variant converts element-wise, anything else yields
the empty list. -/
def Variant.toList : Variant → List Variant
  | .list xs => xs
  | .strList ss => ss.map Variant.str
  | _ => []

/-- Modelled from the spec: `QVariantMap::value(key)` on an association list;
a missing key yields the invalid variant (`null`). -/
def lookupVariant (kvs : List (String × Variant)) (key : String) : Variant :=
  match kvs.lookup key with
  | some v => v
  | none => Variant.null

/-- Modelled from the spec: `CalamaresUtils::getString(map, key)` — the value
when the map holds a *string* under `key`, otherwise the default empty
string (the spec's "raw `groupsUrl` scalar string (if present)"). -/
def getString (kvs : List (String × Variant)) (key : String) : String :=
  match lookupVariant kvs key with
  | .str s => s
  | _ => ""

/-- Modelled from the spec: `CalamaresUtils::getBool(map, key, default)`. -/
def getBool (kvs : List (String × Variant)) (key : String) (d : Bool) : Bool :=
  match lookupVariant kvs key with
  | .boolean b => b
  | _ => d

/-- Modelled from the spec: `CalamaresUtils::yamlToVariant` (utils/Yaml.cpp) —
recursive conversion of a parsed YAML node into a `Variant`; record internals
are opaque to the core, so scalars convert to string variants. -/
def yamlToVariant : YamlNode → Variant
  | .scalar s => .str s
  | .sequence xs => .list (xs.attach.map (fun x => yamlToVariant x.1))
  | .mapping kvs =>
      .vmap (kvs.attach.map (fun kv => (kv.1.1, yamlToVariant kv.1.2)))
decreasing_by
  · have h1 := List.sizeOf_lt_of_mem x.2
    simp_wf
    omega
  · have h1 := List.sizeOf_lt_of_mem kv.2
    obtain ⟨⟨k, v⟩, hm⟩ := kv
    simp_wf
    simp only [Prod.mk.sizeOf_spec] at h1
    omega

/-- Modelled from the spec: `CalamaresUtils::yamlSequenceToVariant` — the
elements of a YAML sequence, converted. -/
def yamlSequenceToVariant (xs : List YamlNode) : List Variant :=
  xs.map yamlToVariant

/-- Modelled from the spec: `CalamaresUtils::yamlMapToVariant` — the entries
of a YAML mapping, converted into a `QVariantMap`. -/
def yamlMapToVariant (kvs : List (String × YamlNode)) : List (String × Variant) :=
  kvs.map (fun kv => (kv.1, yamlToVariant kv.2))

/-- A `QNetworkReply` handle, as `receivedGroupData` consumes it: an identity
(so release can be observed), `isFinished()`, `error()`/`errorString()`
(`none` models `QNetworkReply::NoError`), the request URL, the raw body
returned by `readAll()`, and the outcome of `YAML::Load` on that body
(`Except.error` models a thrown `YAML::Exception`). -/
structure Reply where
  id : Nat
  finished : Bool
  txError : Option String
  url : String
  body : String
  parsed : Except String YamlNode

/-- One observable side effect of the core, in program order: a
`statusChanged` signal carrying the description, the `statusReady` signal,
the call into `Manager::asynchronousGet` (a network operation start), a
`cWarning`/`cDebug` log line, a write into Calamares global storage, and the
scoped release (`cqDeleter`) of a reply handle. -/
inductive Event where
  | statusChanged (desc : String)
  | statusReady
  | fetchStarted (urlText : String)
  | warning (msg : String)
  | debug (msg : String)
  | gsInsert (key value : String)
  | released (id : Nat)
deriving DecidableEq, Repr

/-- `Config::SourceItem` (declared in `Config.h`, built in `Config.cpp`):
a URL together with embedded group data. -/
structure SourceItem where
  url : QUrl
  groupData : List Variant

/-- The mutable state of a `Config` object that `Config.cpp` touches:
`m_status`, the rows of `m_model` (the published group records), `m_reply`,
`m_urls`, `m_required`, and the two optional labels. -/
structure ConfigState where
  status : Status
  modelRows : List Variant
  reply : Option Reply
  urls : List SourceItem
  required : Bool
  sidebarLabel : Option String
  titleLabel : Option String

/-- The initial state of a fresh `Config`: modelled from the spec
("`Ok` (initial/default)"); the model starts empty, no reply, no sources. -/
def ConfigState.initial : ConfigState :=
  { status := .Ok, modelRows := [], reply := none, urls := [],
    required := false, sidebarLabel := none, titleLabel := none }

/-- `Config::status()` — the switch mapping each `Status` to its fixed
user-facing description (`tr` source text; `Ok` maps to the empty string). -/
def statusString : Status → String
  | .Ok => ""
  | .FailedBadConfiguration =>
      "Network Installation. (Disabled: Incorrect configuration)"
  | .FailedBadData =>
      "Network Installation. (Disabled: Received invalid groups data)"
  | .FailedInternalError =>
      "Network Installation. (Disabled: internal error)"
  | .FailedNetworkError =>
      "Network Installation. (Disabled: Unable to fetch package lists, check your network connection)"

/-- `Config::setStatus(s)` — store the new status and emit `statusChanged`
with the description of the newly set state. -/
def setStatus (st : ConfigState) (s : Status) : ConfigState × List Event :=
  ({ st with status := s }, [Event.statusChanged (statusString s)])

/-- `Config::loadGroupList(const QVariantList&)` — hand the group data to the
model (`setupModelData`, which replaces the model contents) and emit
`statusReady`. -/
def loadGroupListData (st : ConfigState) (groupData : List Variant) :
    ConfigState × List Event :=
  ({ st with modelRows := groupData }, [Event.statusReady])

/-- `Config::loadGroupList(const QUrl&)` — the fetch path.  `net` models what
`Manager::asynchronousGet` returns for this call (`none`: the request could
not be started).  Note the source sets `FailedBadConfiguration` on an invalid
URL but does **not** return: it still issues the network request. -/
def loadGroupListUrl (st : ConfigState) (url : QUrl) (net : Option Reply) :
    ConfigState × List Event :=
  let (st1, ev1) :=
    if !url.valid then setStatus st .FailedBadConfiguration else (st, [])
  let ev2 := ev1 ++ [Event.debug ("NetInstall loading groups from " ++ url.text),
                     Event.fetchStarted url.text]
  match net with
  | none =>
      let (st2, ev3) := setStatus st1 .FailedBadConfiguration
      (st2, ev2 ++ [Event.debug "request failed immediately."] ++ ev3)
  | some reply =>
      ({ st1 with reply := some reply }, ev2)

/-- Modelled from the spec: `CalamaresUtils::explainYamlException` — logs the
parser-reported context and the raw payload ("log the raw payload and
parser-reported location/context"). -/
def explainYamlException (e : String) (yamlData : String) (label : String) :
    List Event :=
  [Event.debug ("YAML error " ++ e ++ " in " ++ label),
   Event.debug ("YAML data was " ++ yamlData)]

/-- The body of the `try` block of `Config::receivedGroupData`, given the
outcome of `YAML::Load`: dispatch on the top-level shape, then warn when the
model ended up empty. -/
def processGroupData (st : ConfigState) (parsed : Except String YamlNode)
    (yamlData : String) : ConfigState × List Event :=
  match parsed with
  | .error e =>
      let (st1, ev) := setStatus st .FailedBadData
      (st1, explainYamlException e yamlData "netinstall groups data" ++ ev)
  | .ok node =>
      let (st1, ev1) :=
        match node with
        | .sequence xs => loadGroupListData st (yamlSequenceToVariant xs)
        | .mapping kvs =>
            loadGroupListData st
              (lookupVariant (yamlMapToVariant kvs) "groups").toList
        | .scalar _ =>
            (st, [Event.warning "NetInstall groups data does not form a sequence."])
      let ev2 :=
        if st1.modelRows.length < 1 then
          [Event.warning "NetInstall groups data was empty."]
        else []
      (st1, ev1 ++ ev2)

/-- `Config::receivedGroupData()` — the completion handler.  The early return
for a missing or unfinished reply happens *before* the `cqDeleter` is
constructed; on all later paths the deleter releases the reply when the
scope exits (last, on every path). -/
def receivedGroupData (st : ConfigState) : ConfigState × List Event :=
  match st.reply with
  | none =>
      let (st1, ev) := setStatus st .FailedInternalError
      (st1, Event.warning "NetInstall data called too early." :: ev)
  | some r =>
      if !r.finished then
        let (st1, ev) := setStatus st .FailedInternalError
        (st1, Event.warning "NetInstall data called too early." :: ev)
      else
        let ev0 := [Event.debug ("NetInstall group data received from " ++ r.url)]
        match r.txError with
        | some errText =>
            let (st1, ev) := setStatus st .FailedNetworkError
            (st1, ev0
              ++ [Event.warning "unable to fetch netinstall package lists.",
                  Event.debug ("Netinstall reply error: " ++ errText),
                  Event.debug ("Request for url: " ++ r.url
                    ++ " failed with: " ++ errText)]
              ++ ev ++ [Event.released r.id])
        | none =>
            let (st1, ev) := processGroupData st r.parsed r.body
            (st1, ev0 ++ ev ++ [Event.released r.id])

/-- `Config::SourceItem::makeSourceItem` — `parseUrl` models the Qt URL
parser `QUrl{groupsUrl}` (external to the analysed source). -/
def makeSourceItem (parseUrl : String → QUrl)
    (configurationMap : List (String × Variant)) (groupsUrl : String) :
    SourceItem :=
  if groupsUrl = "local" then
    { url := QUrl.empty,
      groupData := (lookupVariant configurationMap "groups").toList }
  else
    { url := parseUrl groupsUrl, groupData := [] }

/-- Modelled from the spec: `CalamaresUtils::getSubMap` — the sub-map stored
under `key` when there is one. -/
def getSubMap (kvs : List (String × Variant)) (key : String) :
    List (String × Variant) :=
  match lookupVariant kvs key with
  | .vmap m => m
  | _ => []

/-- `Config::setConfigurationMap` — required flag, labels, the `m_urls`
source sequence built from a string- or string-list-valued `groupsUrl`, the
global-storage write of the scalar `groupsUrl`, and the load trigger (local
synchronous load, or fetch).  `parseUrl` and `net` model the external URL
parser and network manager. -/
def setConfigurationMap (parseUrl : String → QUrl) (net : Option Reply)
    (st : ConfigState) (configurationMap : List (String × Variant)) :
    ConfigState × List Event :=
  let label := getSubMap configurationMap "label"
  let st :=
    { st with
      required := getBool configurationMap "required" false,
      sidebarLabel :=
        if (label.lookup "sidebar").isSome then some (getString label "sidebar")
        else st.sidebarLabel,
      titleLabel :=
        if (label.lookup "title").isSome then some (getString label "title")
        else st.titleLabel }
  let groupsUrlVariant := lookupVariant configurationMap "groupsUrl"
  let st :=
    match groupsUrlVariant with
    | .str s =>
        { st with urls := st.urls ++ [makeSourceItem parseUrl configurationMap s] }
    | .strList ss =>
        { st with urls := st.urls
            ++ ss.map (makeSourceItem parseUrl configurationMap) }
    | _ => st
  let groupsUrl := getString configurationMap "groupsUrl"
  if groupsUrl ≠ "" then
    let ev0 := [Event.gsInsert "groupsUrl" groupsUrl]
    if groupsUrl = "local" then
      let l := (lookupVariant configurationMap "groups").toList
      let (st1, ev) := loadGroupListData st l
      (st1, ev0 ++ ev)
    else
      let (st1, ev) := loadGroupListUrl st (parseUrl groupsUrl) net
      (st1, ev0 ++ ev)
  else
    (st, [])

/-- Recognizer for the `statusReady` (readiness) notification. -/
def isReadyEvent : Event → Bool
  | .statusReady => true
  | _ => false

/-- Recognizer for the start of a network operation. -/
def isFetchEvent : Event → Bool
  | .fetchStarted _ => true
  | _ => false

/-- Recognizer for a write to Calamares global storage. -/
def isGsInsertEvent : Event → Bool
  | .gsInsert _ _ => true
  | _ => false

/-- Recognizer for a `statusChanged` notification. -/
def isStatusChangedEvent : Event → Bool
  | .statusChanged _ => true
  | _ => false

/-- Recognizer for the scoped release of a reply handle. -/
def isReleaseEvent : Event → Bool
  | .released _ => true
  | _ => false

/-- Count of `statusReady` (readiness) notifications in an event trace. -/
def readyCount (evs : List Event) : Nat :=
  evs.countP isReadyEvent

/-- Count of `fetchStarted` (network-operation) events in an event trace. -/
def fetchCount (evs : List Event) : Nat :=
  evs.countP isFetchEvent

/-- Count of global-storage writes in an event trace. -/
def gsInsertCount (evs : List Event) : Nat :=
  evs.countP isGsInsertEvent

/-- Count of `statusChanged` notifications in an event trace. -/
def statusChangedCount (evs : List Event) : Nat :=
  evs.countP isStatusChangedEvent

/-- Count of reply-handle releases in an event trace. -/
def releaseCount (evs : List Event) : Nat :=
  evs.countP isReleaseEvent

/-! ### Concrete inputs used by witnesses and counterexamples -/

/-- A URL parser for concrete runs: keeps the text, reports valid. -/
def idUrl : String → QUrl := fun s => ⟨s, true⟩

/-- A finished, error-free reply whose body parses to the empty sequence. -/
def replyEmptySeq : Reply :=
  ⟨1, true, none, "http://example.com/g.yaml", "[]", .ok (.sequence [])⟩

/-- A second such reply (distinct identity), for the double-fetch run. -/
def replySecond : Reply :=
  ⟨2, true, none, "http://example.org/g.yaml", "[]", .ok (.sequence [])⟩

/-- A reply that is not yet finished when completion is delivered. -/
def replyUnfinished : Reply :=
  ⟨7, false, none, "http://example.com/g.yaml", "", .ok (.sequence [])⟩

/-- A finished reply whose transport reports an error. -/
def replyNetError : Reply :=
  ⟨3, true, some "Connection refused", "http://example.com/g.yaml", "",
   .ok (.sequence [])⟩

/-- A finished reply whose body raises a parse exception. -/
def replyBadYaml : Reply :=
  ⟨4, true, none, "http://example.com/g.yaml", "\x7b bad",
   .error "end of map flow not found"⟩

/-- A finished reply whose body parses to a mapping with no groups entry. -/
def replyMapNoGroups : Reply :=
  ⟨5, true, none, "http://example.com/g.yaml", "\x7b\x7d", .ok (.mapping [])⟩

/-- A finished reply whose body parses to a bare scalar. -/
def replyScalar : Reply :=
  ⟨6, true, none, "http://example.com/g.yaml", "hello", .ok (.scalar "hello")⟩

/-- The initial state with a given pending reply installed. -/
def stateWithReply (r : Reply) : ConfigState :=
  { ConfigState.initial with reply := some r }

/-- The embedded group list used by the concrete local-load run. -/
def localGroups : List Variant := [Variant.vmap [("name", Variant.str "base")]]

/-- A configuration map with `groupsUrl: local` and embedded groups. -/
def cfgLocal : List (String × Variant) :=
  [("groupsUrl", Variant.str "local"), ("groups", Variant.list localGroups)]

/-- A configuration map whose `groupsUrl` is a list of strings. -/
def cfgList : List (String × Variant) :=
  [("groupsUrl", Variant.strList ["http://a.example/g", "http://b.example/g"])]

/-! ### Claims -/

/-- C8: the status-description function is total over the five states and
fixed — `Ok` maps to the empty string, each failure state to its own fixed
non-empty description (all four pairwise distinct) — and every `setStatus`
call stores the new state and fires exactly one `statusChanged` notification
carrying the description of the newly set state. -/
theorem c8_status_descriptions_and_notification :
    (statusString .Ok = "" ∧
     statusString .FailedBadConfiguration =
       "Network Installation. (Disabled: Incorrect configuration)" ∧
     statusString .FailedBadData =
       "Network Installation. (Disabled: Received invalid groups data)" ∧
     statusString .FailedInternalError =
       "Network Installation. (Disabled: internal error)" ∧
     statusString .FailedNetworkError =
       "Network Installation. (Disabled: Unable to fetch package lists, check your network connection)") ∧
    (statusString .FailedBadConfiguration ≠ "" ∧
     statusString .FailedBadData ≠ "" ∧
     statusString .FailedInternalError ≠ "" ∧
     statusString .FailedNetworkError ≠ "") ∧
    (statusString .FailedBadConfiguration ≠ statusString .FailedBadData ∧
     statusString .FailedBadConfiguration ≠ statusString .FailedInternalError ∧
     statusString .FailedBadConfiguration ≠ statusString .FailedNetworkError ∧
     statusString .FailedBadData ≠ statusString .FailedInternalError ∧
     statusString .FailedBadData ≠ statusString .FailedNetworkError ∧
     statusString .FailedInternalError ≠ statusString .FailedNetworkError) ∧
    (∀ (st : ConfigState) (s : Status),
      (setStatus st s).1.status = s ∧
      (setStatus st s).2 = [Event.statusChanged (statusString s)]) := by
  refine ⟨⟨rfl, rfl, rfl, rfl, rfl⟩, by decide, by decide, ?_⟩
  intro st s
  exact ⟨rfl, rfl⟩

/-- C9: `makeSourceItem` satisfies the exclusivity invariant — for the
sentinel `"local"` the result carries the embedded `groups` list and the
empty (invalid) URL; for any other argument it carries the parsed argument
as URL and an empty embedded list; in no case are both populated. -/
theorem c9_makeSourceItem_exclusivity (parseUrl : String → QUrl)
    (configurationMap : List (String × Variant)) (groupsUrl : String) :
    (groupsUrl = "local" →
      makeSourceItem parseUrl configurationMap groupsUrl =
        { url := QUrl.empty,
          groupData := (lookupVariant configurationMap "groups").toList }) ∧
    (groupsUrl ≠ "local" →
      makeSourceItem parseUrl configurationMap groupsUrl =
        { url := parseUrl groupsUrl, groupData := [] }) ∧
    ((makeSourceItem parseUrl configurationMap groupsUrl).groupData ≠ [] →
      (makeSourceItem parseUrl configurationMap groupsUrl).url = QUrl.empty) := by
  by_cases h : groupsUrl = "local" <;>
    simp [makeSourceItem, h]

/-- Witness for C9 at both branches: the sentinel yields the embedded list
and the empty URL, a remote string yields that URL and no embedded data. -/
theorem c9_makeSourceItem_exclusivity_witness :
    makeSourceItem idUrl cfgLocal "local" =
      { url := QUrl.empty, groupData := localGroups } ∧
    makeSourceItem idUrl cfgLocal "http://a.example/g" =
      { url := idUrl "http://a.example/g", groupData := [] } :=
  ⟨(c9_makeSourceItem_exclusivity idUrl cfgLocal "local").1 rfl,
   (c9_makeSourceItem_exclusivity idUrl cfgLocal "http://a.example/g").2.1
     (by decide)⟩

/-- C1 (divergence run): on the structurally invalid empty URL, the code does
set `FailedBadConfiguration`, but — lacking an early return — it still calls
the network manager (`fetchStarted`), stores the returned handle, and when
that fetch later completes successfully the readiness notification fires,
with the status still `FailedBadConfiguration`. -/
theorem c1_invalid_url_still_starts_fetch :
    (loadGroupListUrl ConfigState.initial QUrl.empty (some replyEmptySeq)).1.status
        = Status.FailedBadConfiguration ∧
    fetchCount (loadGroupListUrl ConfigState.initial QUrl.empty (some replyEmptySeq)).2 = 1 ∧
    (loadGroupListUrl ConfigState.initial QUrl.empty (some replyEmptySeq)).1.reply
        = some replyEmptySeq ∧
    readyCount (receivedGroupData
        (loadGroupListUrl ConfigState.initial QUrl.empty (some replyEmptySeq)).1).2 = 1 ∧
    (receivedGroupData
        (loadGroupListUrl ConfigState.initial QUrl.empty (some replyEmptySeq)).1).1.status
        = Status.FailedBadConfiguration := by
  refine ⟨rfl, by decide, rfl, ?_, rfl⟩
  rfl

/-- C2 (counterexample): with a handle already outstanding, a second call to
the fetch path starts a new network operation, overwrites the stored handle
with the new one, and neither cancels nor releases the prior handle — the
prior outstanding handle is silently lost, against the claimed policy. -/
theorem c2_second_fetch_loses_prior_handle_cex :
    (loadGroupListUrl ConfigState.initial ⟨"http://a.example/g", true⟩
        (some replyEmptySeq)).1.reply = some replyEmptySeq ∧
    fetchCount (loadGroupListUrl
        (loadGroupListUrl ConfigState.initial ⟨"http://a.example/g", true⟩
          (some replyEmptySeq)).1
        ⟨"http://b.example/g", true⟩ (some replySecond)).2 = 1 ∧
    (loadGroupListUrl
        (loadGroupListUrl ConfigState.initial ⟨"http://a.example/g", true⟩
          (some replyEmptySeq)).1
        ⟨"http://b.example/g", true⟩ (some replySecond)).1.reply
      = some replySecond ∧
    releaseCount (loadGroupListUrl
        (loadGroupListUrl ConfigState.initial ⟨"http://a.example/g", true⟩
          (some replyEmptySeq)).1
        ⟨"http://b.example/g", true⟩ (some replySecond)).2 = 0 := by
  exact ⟨rfl, by decide, rfl, by decide⟩

/-- C2 (amended): `m_reply` holds at most one handle reference; a second
fetch call while a handle is outstanding starts the new request and
overwrites `m_reply` with the new handle, without cancelling or releasing
the prior one — the prior handle is silently dropped from tracking. -/
theorem c2_second_fetch_overwrites_without_release
    (st : ConfigState) (r1 r2 : Reply) (url : QUrl)
    (_h1 : st.reply = some r1) (hv : url.valid = true) :
    (loadGroupListUrl st url (some r2)).1.reply = some r2 ∧
    fetchCount (loadGroupListUrl st url (some r2)).2 = 1 ∧
    releaseCount (loadGroupListUrl st url (some r2)).2 = 0 ∧
    Event.released r1.id ∉ (loadGroupListUrl st url (some r2)).2 ∧
    (loadGroupListUrl st url (some r2)).1.status = st.status := by
  simp [loadGroupListUrl, hv, fetchCount, releaseCount, isFetchEvent,
        isReleaseEvent]

/-- Witness for C2 (amended) on a concrete double-fetch run. -/
theorem c2_second_fetch_overwrites_without_release_witness :
    (loadGroupListUrl ConfigState.initial ⟨"http://a.example/g", true⟩
        (some replyEmptySeq)).1.reply = some replyEmptySeq ∧
    ((loadGroupListUrl
        (loadGroupListUrl ConfigState.initial ⟨"http://a.example/g", true⟩
          (some replyEmptySeq)).1
        ⟨"http://b.example/g", true⟩ (some replySecond)).1.reply
      = some replySecond ∧
     fetchCount (loadGroupListUrl
        (loadGroupListUrl ConfigState.initial ⟨"http://a.example/g", true⟩
          (some replyEmptySeq)).1
        ⟨"http://b.example/g", true⟩ (some replySecond)).2 = 1 ∧
     releaseCount (loadGroupListUrl
        (loadGroupListUrl ConfigState.initial ⟨"http://a.example/g", true⟩
          (some replyEmptySeq)).1
        ⟨"http://b.example/g", true⟩ (some replySecond)).2 = 0 ∧
     Event.released replyEmptySeq.id ∉ (loadGroupListUrl
        (loadGroupListUrl ConfigState.initial ⟨"http://a.example/g", true⟩
          (some replyEmptySeq)).1
        ⟨"http://b.example/g", true⟩ (some replySecond)).2 ∧
     (loadGroupListUrl
        (loadGroupListUrl ConfigState.initial ⟨"http://a.example/g", true⟩
          (some replyEmptySeq)).1
        ⟨"http://b.example/g", true⟩ (some replySecond)).1.status
      = (loadGroupListUrl ConfigState.initial ⟨"http://a.example/g", true⟩
          (some replyEmptySeq)).1.status) :=
  ⟨rfl,
   c2_second_fetch_overwrites_without_release _ replyEmptySeq replySecond
     ⟨"http://b.example/g", true⟩ rfl rfl⟩

/-- C3 (counterexample): completion delivered while the stored handle is
still unfinished sets `FailedInternalError` and fires no readiness
notification, but the handle is **not** released on that path — the early
return precedes the scoped deleter. -/
theorem c3_unfinished_reply_not_released_cex :
    (receivedGroupData (stateWithReply replyUnfinished)).1.status
        = Status.FailedInternalError ∧
    readyCount (receivedGroupData (stateWithReply replyUnfinished)).2 = 0 ∧
    releaseCount (receivedGroupData (stateWithReply replyUnfinished)).2 = 0 ∧
    (receivedGroupData (stateWithReply replyUnfinished)).1.reply
        = some replyUnfinished := by
  exact ⟨rfl, by decide, by decide, rfl⟩

/-- C3 (amended): completion with no pending handle, or with an unfinished
handle, transitions to `FailedInternalError` and stops with no readiness
notification; however on the unfinished-handle path the handle is *not*
released — the scoped deleter only guards the paths reached after the
finished check — and the stale reference remains stored. -/
theorem c3_internal_error_no_release (st : ConfigState) :
    (st.reply = none →
      (receivedGroupData st).1.status = Status.FailedInternalError ∧
      readyCount (receivedGroupData st).2 = 0) ∧
    (∀ r : Reply, st.reply = some r → r.finished = false →
      (receivedGroupData st).1.status = Status.FailedInternalError ∧
      readyCount (receivedGroupData st).2 = 0 ∧
      releaseCount (receivedGroupData st).2 = 0 ∧
      (receivedGroupData st).1.reply = some r) := by
  constructor
  · intro h
    simp [receivedGroupData, h, setStatus, readyCount, isReadyEvent]
  · intro r hr hf
    simp [receivedGroupData, hr, hf, setStatus, readyCount, releaseCount,
          isReadyEvent, isReleaseEvent]

/-- Witness for C3 (amended) at the missing-handle and unfinished-handle
inputs. -/
theorem c3_internal_error_no_release_witness :
    ((receivedGroupData ConfigState.initial).1.status
        = Status.FailedInternalError ∧
     readyCount (receivedGroupData ConfigState.initial).2 = 0) ∧
    ((receivedGroupData (stateWithReply replyUnfinished)).1.status
        = Status.FailedInternalError ∧
     readyCount (receivedGroupData (stateWithReply replyUnfinished)).2 = 0 ∧
     releaseCount (receivedGroupData (stateWithReply replyUnfinished)).2 = 0 ∧
     (receivedGroupData (stateWithReply replyUnfinished)).1.reply
        = some replyUnfinished) :=
  ⟨(c3_internal_error_no_release ConfigState.initial).1 rfl,
   (c3_internal_error_no_release (stateWithReply replyUnfinished)).2
     replyUnfinished rfl rfl⟩

/-- C4 (counterexample): a successfully parsed payload that is a mapping
without a usable `groups` entry does **not** leave the model untouched with
no readiness notification: the code publishes an empty record list through
`loadGroupList` and fires `statusReady` once. -/
theorem c4_map_without_groups_fires_ready_cex :
    (receivedGroupData (stateWithReply replyMapNoGroups)).1.status
        = Status.Ok ∧
    (receivedGroupData (stateWithReply replyMapNoGroups)).1.modelRows = [] ∧
    readyCount (receivedGroupData (stateWithReply replyMapNoGroups)).2 = 1 ∧
    Event.warning "NetInstall groups data was empty."
        ∈ (receivedGroupData (stateWithReply replyMapNoGroups)).2 := by
  refine ⟨rfl, rfl, by decide, by decide⟩

/-- C4 (amended): for a successfully parsed payload that is neither a
sequence nor a mapping (a scalar), a warning is logged, the model is left
untouched, the Status keeps its value and readiness does not fire; for a
mapping without a usable `groups` entry, however, the code publishes an
empty record list and fires the readiness notification once (with an
empty-data warning), the Status likewise keeping its value. -/
theorem c4_unusable_shape_behaviour (st : ConfigState) (r : Reply)
    (hr : st.reply = some r) (hf : r.finished = true) (he : r.txError = none) :
    (∀ s : String, r.parsed = .ok (.scalar s) →
      (receivedGroupData st).1.status = st.status ∧
      (receivedGroupData st).1.modelRows = st.modelRows ∧
      readyCount (receivedGroupData st).2 = 0 ∧
      Event.warning "NetInstall groups data does not form a sequence."
        ∈ (receivedGroupData st).2) ∧
    (∀ kvs : List (String × YamlNode), r.parsed = .ok (.mapping kvs) →
      (lookupVariant (yamlMapToVariant kvs) "groups").toList = [] →
      (receivedGroupData st).1.status = st.status ∧
      (receivedGroupData st).1.modelRows = [] ∧
      readyCount (receivedGroupData st).2 = 1 ∧
      Event.warning "NetInstall groups data was empty."
        ∈ (receivedGroupData st).2) := by
  constructor
  · intro s hp
    simp [receivedGroupData, hr, hf, he, hp, processGroupData,
          readyCount, isReadyEvent]
  · intro kvs hp hg
    simp [receivedGroupData, hr, hf, he, hp, processGroupData, hg,
          loadGroupListData, readyCount, isReadyEvent]

/-- Witness for C4 (amended) at a scalar payload and at a mapping payload
without a `groups` entry. -/
theorem c4_unusable_shape_behaviour_witness :
    ((receivedGroupData (stateWithReply replyScalar)).1.status
        = (stateWithReply replyScalar).status ∧
     (receivedGroupData (stateWithReply replyScalar)).1.modelRows
        = (stateWithReply replyScalar).modelRows ∧
     readyCount (receivedGroupData (stateWithReply replyScalar)).2 = 0 ∧
     Event.warning "NetInstall groups data does not form a sequence."
        ∈ (receivedGroupData (stateWithReply replyScalar)).2) ∧
    ((receivedGroupData (stateWithReply replyMapNoGroups)).1.status
        = (stateWithReply replyMapNoGroups).status ∧
     (receivedGroupData (stateWithReply replyMapNoGroups)).1.modelRows = [] ∧
     readyCount (receivedGroupData (stateWithReply replyMapNoGroups)).2 = 1 ∧
     Event.warning "NetInstall groups data was empty."
        ∈ (receivedGroupData (stateWithReply replyMapNoGroups)).2) :=
  ⟨(c4_unusable_shape_behaviour (stateWithReply replyScalar) replyScalar
      rfl rfl rfl).1 "hello" rfl,
   (c4_unusable_shape_behaviour (stateWithReply replyMapNoGroups)
      replyMapNoGroups rfl rfl rfl).2 [] rfl rfl⟩

/-- C5: with scalar `groupsUrl == "local"` and embedded `groups = G`,
`setConfigurationMap` loads synchronously — the published records equal `G`
exactly, the Status stays `Ok`, readiness fires exactly once, and no network
fetch is attempted (the pending-reply slot is untouched). -/
theorem c5_local_groups_synchronous (parseUrl : String → QUrl)
    (net : Option Reply) (st : ConfigState) (cfg : List (String × Variant))
    (G : List Variant)
    (hurl : lookupVariant cfg "groupsUrl" = Variant.str "local")
    (hg : lookupVariant cfg "groups" = Variant.list G)
    (hok : st.status = Status.Ok) :
    (setConfigurationMap parseUrl net st cfg).1.modelRows = G ∧
    (setConfigurationMap parseUrl net st cfg).1.status = Status.Ok ∧
    readyCount (setConfigurationMap parseUrl net st cfg).2 = 1 ∧
    fetchCount (setConfigurationMap parseUrl net st cfg).2 = 0 ∧
    (setConfigurationMap parseUrl net st cfg).1.reply = st.reply := by
  simp [setConfigurationMap, getString, hurl, hg, hok, loadGroupListData,
        readyCount, fetchCount, isReadyEvent, isFetchEvent, Variant.toList]

/-- Witness for C5 on a concrete local configuration map. -/
theorem c5_local_groups_synchronous_witness :
    lookupVariant cfgLocal "groupsUrl" = Variant.str "local" ∧
    ((setConfigurationMap idUrl none ConfigState.initial cfgLocal).1.modelRows
        = localGroups ∧
     (setConfigurationMap idUrl none ConfigState.initial cfgLocal).1.status
        = Status.Ok ∧
     readyCount (setConfigurationMap idUrl none ConfigState.initial cfgLocal).2
        = 1 ∧
     fetchCount (setConfigurationMap idUrl none ConfigState.initial cfgLocal).2
        = 0 ∧
     (setConfigurationMap idUrl none ConfigState.initial cfgLocal).1.reply
        = ConfigState.initial.reply) :=
  ⟨rfl,
   c5_local_groups_synchronous idUrl none ConfigState.initial cfgLocal
     localGroups rfl rfl rfl⟩

/-- C6: completion with a finished handle whose transport reports an error
transitions to `FailedNetworkError`, logs the URL and the transport error
text, and stops — no readiness notification, no change to the published
records. -/
theorem c6_transport_error_failed_network (st : ConfigState) (r : Reply)
    (errText : String) (hr : st.reply = some r) (hf : r.finished = true)
    (he : r.txError = some errText) :
    (receivedGroupData st).1.status = Status.FailedNetworkError ∧
    Event.debug ("Request for url: " ++ r.url ++ " failed with: " ++ errText)
        ∈ (receivedGroupData st).2 ∧
    readyCount (receivedGroupData st).2 = 0 ∧
    (receivedGroupData st).1.modelRows = st.modelRows := by
  simp [receivedGroupData, hr, hf, he, setStatus, readyCount, isReadyEvent]

/-- Witness for C6 at a concrete connection-refused reply. -/
theorem c6_transport_error_failed_network_witness :
    (receivedGroupData (stateWithReply replyNetError)).1.status
        = Status.FailedNetworkError ∧
    Event.debug ("Request for url: " ++ replyNetError.url ++ " failed with: "
        ++ "Connection refused")
        ∈ (receivedGroupData (stateWithReply replyNetError)).2 ∧
    readyCount (receivedGroupData (stateWithReply replyNetError)).2 = 0 ∧
    (receivedGroupData (stateWithReply replyNetError)).1.modelRows
        = (stateWithReply replyNetError).modelRows :=
  c6_transport_error_failed_network (stateWithReply replyNetError)
    replyNetError "Connection refused" rfl rfl rfl

/-- C7: a payload whose parse raises a structural exception is handled
inside the completion handler (which returns normally): the Status becomes
`FailedBadData`, the parser context and the raw payload are logged, no
readiness notification fires, and the records are untouched. -/
theorem c7_parse_exception_failed_bad_data (st : ConfigState) (r : Reply)
    (e : String) (hr : st.reply = some r) (hf : r.finished = true)
    (he : r.txError = none) (hp : r.parsed = .error e) :
    (receivedGroupData st).1.status = Status.FailedBadData ∧
    Event.debug ("YAML error " ++ e ++ " in " ++ "netinstall groups data")
        ∈ (receivedGroupData st).2 ∧
    Event.debug ("YAML data was " ++ r.body) ∈ (receivedGroupData st).2 ∧
    readyCount (receivedGroupData st).2 = 0 ∧
    (receivedGroupData st).1.modelRows = st.modelRows := by
  simp [receivedGroupData, hr, hf, he, hp, processGroupData,
        explainYamlException, setStatus, readyCount, isReadyEvent]

/-- Witness for C7 at a concrete malformed-YAML reply. -/
theorem c7_parse_exception_failed_bad_data_witness :
    (receivedGroupData (stateWithReply replyBadYaml)).1.status
        = Status.FailedBadData ∧
    Event.debug ("YAML error " ++ "end of map flow not found" ++ " in "
        ++ "netinstall groups data")
        ∈ (receivedGroupData (stateWithReply replyBadYaml)).2 ∧
    Event.debug ("YAML data was " ++ replyBadYaml.body)
        ∈ (receivedGroupData (stateWithReply replyBadYaml)).2 ∧
    readyCount (receivedGroupData (stateWithReply replyBadYaml)).2 = 0 ∧
    (receivedGroupData (stateWithReply replyBadYaml)).1.modelRows
        = (stateWithReply replyBadYaml).modelRows :=
  c7_parse_exception_failed_bad_data (stateWithReply replyBadYaml)
    replyBadYaml "end of map flow not found" rfl rfl rfl rfl

/-- C10: with a string-list-valued `groupsUrl`, `setConfigurationMap`
appends one resolved source per list element and changes nothing else — no
fetch is started, no records are published, no readiness notification fires,
the Status is unchanged, and no global-storage write occurs (indeed the
trigger step emits no event at all). -/
theorem c10_stringlist_appends_sources_only (parseUrl : String → QUrl)
    (net : Option Reply) (st : ConfigState) (cfg : List (String × Variant))
    (ss : List String)
    (h : lookupVariant cfg "groupsUrl" = Variant.strList ss) :
    (setConfigurationMap parseUrl net st cfg).1.urls
        = st.urls ++ ss.map (makeSourceItem parseUrl cfg) ∧
    (setConfigurationMap parseUrl net st cfg).1.status = st.status ∧
    (setConfigurationMap parseUrl net st cfg).1.modelRows = st.modelRows ∧
    (setConfigurationMap parseUrl net st cfg).1.reply = st.reply ∧
    fetchCount (setConfigurationMap parseUrl net st cfg).2 = 0 ∧
    readyCount (setConfigurationMap parseUrl net st cfg).2 = 0 ∧
    gsInsertCount (setConfigurationMap parseUrl net st cfg).2 = 0 ∧
    (setConfigurationMap parseUrl net st cfg).2 = [] := by
  simp [setConfigurationMap, getString, h, fetchCount, readyCount,
        gsInsertCount, isFetchEvent, isReadyEvent, isGsInsertEvent]

/-- Witness for C10 on a concrete two-element `groupsUrl` list. -/
theorem c10_stringlist_appends_sources_only_witness :
    lookupVariant cfgList "groupsUrl"
        = Variant.strList ["http://a.example/g", "http://b.example/g"] ∧
    ((setConfigurationMap idUrl none ConfigState.initial cfgList).1.urls
        = ConfigState.initial.urls
          ++ (["http://a.example/g", "http://b.example/g"]).map
               (makeSourceItem idUrl cfgList) ∧
     (setConfigurationMap idUrl none ConfigState.initial cfgList).1.status
        = ConfigState.initial.status ∧
     (setConfigurationMap idUrl none ConfigState.initial cfgList).1.modelRows
        = ConfigState.initial.modelRows ∧
     (setConfigurationMap idUrl none ConfigState.initial cfgList).1.reply
        = ConfigState.initial.reply ∧
     fetchCount (setConfigurationMap idUrl none ConfigState.initial cfgList).2
        = 0 ∧
     readyCount (setConfigurationMap idUrl none ConfigState.initial cfgList).2
        = 0 ∧
     gsInsertCount
        (setConfigurationMap idUrl none ConfigState.initial cfgList).2 = 0 ∧
     (setConfigurationMap idUrl none ConfigState.initial cfgList).2 = []) :=
  ⟨rfl,
   c10_stringlist_appends_sources_only idUrl none ConfigState.initial cfgList
     ["http://a.example/g", "http://b.example/g"] rfl⟩

end Netinstall
